import Mathlib

/-!
Verification of the Madani OS installer
(`src/config/osv/madani/madani24/imageconfigs/additionalfiles/installer-gui.py`).

The development shallowly embeds the installer's control logic:

* `pyStrip` models Python `str.strip()` on the whitespace characters relevant
  to the wizard entries;
* `userSetupCheck` and `validateCurrentPage` embed `validate_current_page`;
* `onNext` embeds the navigation handler `on_next`;
* `showPage` / `onBackClicked` embed `show_page` and `on_back` together with
  the Back-button visibility/sensitivity that gates a user click;
* `deploySteps` / `configureSteps` / `runSteps` embed the background thread of
  `perform_installation` and `configure_installed_system` as a sequence of
  external invocations, each recorded as an `Event`; a step with `check=True`
  is `fatal` (a non-zero exit raises and aborts the remaining steps of its
  block), a step with `check=False` never aborts.  The `Env` record supplies
  the exit status of every fallible invocation.
-/

namespace Installer

/-- Whitespace characters stripped by Python `str.strip()` (ASCII part). -/
def isPySpace (c : Char) : Bool :=
  c = ' ' || c = '\t' || c = '\n' || c = '\r' || c = '\x0b' || c = '\x0c'

/-- Model of Python `str.strip()`: drop leading and trailing whitespace. -/
def pyStrip (s : String) : String :=
  String.mk (((s.data.dropWhile isPySpace).reverse.dropWhile isPySpace).reverse)

/-- The user-page checks of `validate_current_page` (lines 764-784): the
username and hostname entries are stripped, the password entry is compared
raw against the confirmation entry, and the first failing check produces the
dialog message of the source. -/
def userSetupCheck (u h p pc : String) : Option String :=
  if pyStrip u = "" then some "Please enter a username"
  else if pyStrip h = "" then some "Please enter a computer name"
  else if p = "" then some "Please enter a password"
  else if p ≠ pc then some "Passwords do not match"
  else none

/-- The mutable wizard fields of `InstallerWindow` read by the pipeline:
`qcow2_image`, `selected_disk`, `username`, `hostname`, `password`. -/
structure Fields where
  qcow2Image : String
  selectedDisk : String
  username : String
  hostname : String
  password : String
deriving DecidableEq

/-- The texts currently held by the four `Gtk.Entry` widgets of the
user-configuration page. -/
structure Entries where
  usernameEntry : String
  hostnameEntry : String
  passwordEntry : String
  passwordConfirmEntry : String
deriving DecidableEq

/-- The user-page branch of `validate_current_page` (lines 764-784): the
entry texts are copied into the instance fields (stripped for username and
hostname, raw for the password) before any check runs, and the check result
is the first failing message, if any. -/
def validateUserPage (f : Fields) (e : Entries) : Fields × Option String :=
  ({ f with
      username := pyStrip e.usernameEntry
      hostname := pyStrip e.hostnameEntry
      password := e.passwordEntry },
   userSetupCheck e.usernameEntry e.hostnameEntry e.passwordEntry e.passwordConfirmEntry)

/-- `validate_current_page` (lines 747-786): page 2 requires a tree-view
selection (on success the selection is stored into `selected_disk`); page 3
is the user page; every other page validates trivially. -/
def validateCurrentPage (page : Nat) (f : Fields) (sel : Option String) (e : Entries) :
    Fields × Option String :=
  if page = 2 then
    match sel with
    | none => (f, some "Please select a disk")
    | some d => ({ f with selectedDisk := d }, none)
  else if page = 3 then validateUserPage f e
  else (f, none)

/-- `on_next` (lines 696-717) restricted to its navigation effect: a failed
validation returns with the page unchanged (but with whatever field
assignments the validation attempt already made); a successful validation
advances the page.  The result is (new page, new fields, error dialog shown). -/
def onNext (page : Nat) (f : Fields) (sel : Option String) (e : Entries) :
    Nat × Fields × Option String :=
  let v := validateCurrentPage page f sel e
  match v.2 with
  | some msg => (page, v.1, some msg)
  | none => (if page < 6 then page + 1 else page, v.1, none)

theorem pyStrip_of_all_space (s : String) (h : ∀ c ∈ s.data, isPySpace c = true) :
    pyStrip s = "" := by
  unfold pyStrip
  rw [List.dropWhile_eq_nil_iff.mpr h]
  rfl

/-- One external invocation of the background installation thread.  Each
constructor records the arguments the source passes to the corresponding
OS-level command or file write. -/
inductive Event where
  | umountParts (disk : String)
  | verifyImage (img : String)
  | flashImage (img disk : String)
  | syncFs
  | partprobe (disk : String)
  | mountRoot (part : String)
  | writeHostname (h : String)
  | writeHosts (h : String)
  | mountProc
  | mountSys
  | bindDev
  | mountDevpts
  | chrootUseradd (u : String)
  | chrootChpasswd (account pw : String)
  | chrootUsermod (u : String)
  | umountPath (path : String)
deriving DecidableEq

/-- Outcomes of the fallible external invocations of one installation run:
`true` means the invocation exited with status 0 (and file writes succeeded).
`fsLines` are the (NAME, FSTYPE) columns of the `lsblk` rows with at least
two columns, used by the root-partition discovery of
`configure_installed_system`. -/
structure Env where
  verifyOk : Bool
  flashOk : Bool
  fsLines : List (String × String)
  mountRootOk : Bool
  writeHostnameOk : Bool
  writeHostsOk : Bool
  useraddOk : Bool
  userPasswdOk : Bool
  usermodOk : Bool
  rootPasswdOk : Bool
deriving DecidableEq

/-- A step of the background thread: the recorded invocation, whether the
source runs it with `check=True` (so a failure raises), and its outcome. -/
structure Step where
  ev : Event
  fatal : Bool
  ok : Bool

/-- Execute a straight-line block of steps the way Python does: each step is
invoked in order; a `check=True` step whose invocation fails raises, so the
following steps of the block are skipped.  Returns the invocations actually
made and whether the block completed without raising. -/
def runSteps : List Step → List Event × Bool
  | [] => ([], true)
  | s :: rest =>
      if s.fatal && !s.ok then ([s.ev], false)
      else
        let r := runSteps rest
        (s.ev :: r.1, r.2)

/-- The mount point used by `configure_installed_system`. -/
def mountPoint : String := "/mnt/madani-install"

/-- Root-partition discovery (lines 867-880): the first `lsblk` row whose
filesystem type is ext4, xfs or btrfs names the root partition, prefixed
with `/dev/` when the name is not already absolute.  (Both branches of the
source's nvme/mmcblk test produce the same `/dev/`-prefixed name.) -/
def findRootPartitionFromLines (lines : List (String × String)) : Option String :=
  match lines.find? (fun l => l.2 = "ext4" || l.2 = "xfs" || l.2 = "btrfs") with
  | some l => some (if l.1.startsWith "/dev/" then l.1 else "/dev/" ++ l.1)
  | none => none

/-- Python `needle in haystack` on strings. -/
def strContains (needle hay : String) : Bool :=
  decide (needle.data <:+: hay.data)

/-- Fallback partition naming (lines 882-888): `p2` suffix for nvme/mmcblk
devices, plain `2` suffix otherwise. -/
def defaultRootPartition (disk : String) : String :=
  if strContains "nvme" disk || strContains "mmcblk" disk then disk ++ "p2"
  else disk ++ "2"

/-- The root partition `configure_installed_system` mounts. -/
def findRootPartition (lines : List (String × String)) (disk : String) : String :=
  match findRootPartitionFromLines lines with
  | some p => p
  | none => defaultRootPartition disk

/-- The `try` block of `configure_installed_system` (lines 857-942) as a
step sequence: mount the root partition (`check=True`), write the hostname
and hosts files (a failed write raises), mount the four chroot
pseudo-filesystems (`check=False`), then in the chroot create the user
(`check=True`), set the user's password (`check=True`), add the user to the
sudo group (`check=False`), and set the root password (`check=True`). -/
def configureSteps (env : Env) (disk u h pw : String) : List Step :=
  let root := findRootPartition env.fsLines disk
  [ ⟨.mountRoot root, true, env.mountRootOk⟩,
    ⟨.writeHostname h, true, env.writeHostnameOk⟩,
    ⟨.writeHosts h, true, env.writeHostsOk⟩,
    ⟨.mountProc, false, true⟩,
    ⟨.mountSys, false, true⟩,
    ⟨.bindDev, false, true⟩,
    ⟨.mountDevpts, false, true⟩,
    ⟨.chrootUseradd u, true, env.useraddOk⟩,
    ⟨.chrootChpasswd u pw, true, env.userPasswdOk⟩,
    ⟨.chrootUsermod u, false, env.usermodOk⟩,
    ⟨.chrootChpasswd "root" pw, true, env.rootPasswdOk⟩ ]

/-- The `finally` block of `configure_installed_system` (lines 949-957):
force-unmount devpts, the /dev bind, sysfs, proc, then the root mount point,
each `check=False`, and finally `sync`. -/
def teardownEvents : List Event :=
  [ .umountPath (mountPoint ++ "/dev/pts"),
    .umountPath (mountPoint ++ "/dev"),
    .umountPath (mountPoint ++ "/sys"),
    .umountPath (mountPoint ++ "/proc"),
    .umountPath mountPoint,
    .syncFs ]

/-- `configure_installed_system` (lines 853-957): run the `try` block; the
`except` clause swallows any exception (it only logs), and the `finally`
block always appends the teardown.  The Bool records whether the `try` block
completed without raising. -/
def configureInstalledSystem (env : Env) (disk u h pw : String) : List Event × Bool :=
  let r := runSteps (configureSteps env disk u h pw)
  (r.1 ++ teardownEvents, r.2)

/-- The deploy part of `install_thread` (lines 814-836): best-effort unmount
of the target's partitions, `qemu-img info` verification (`check=True`),
`qemu-img convert` flash (`check=True`), `sync` and `partprobe`
(no `check`). -/
def deploySteps (env : Env) (img disk : String) : List Step :=
  [ ⟨.umountParts disk, false, true⟩,
    ⟨.verifyImage img, true, env.verifyOk⟩,
    ⟨.flashImage img disk, true, env.flashOk⟩,
    ⟨.syncFs, false, true⟩,
    ⟨.partprobe disk, false, true⟩ ]

/-- Result of one background installation run: the invocation trace, whether
the deploy part completed (so `installation_complete` runs; otherwise the
`except` clause calls `installation_failed`), whether the configurator's
`try` block completed, and the wizard page the run ends on (6 = Finish,
1 = Welcome). -/
structure RunResult where
  trace : List Event
  deployOk : Bool
  configOk : Bool
  finalPage : Nat
deriving DecidableEq

/-- `install_thread` (lines 812-846): on any raise in the deploy steps the
`except` clause reports failure and the configurator never runs; otherwise
`configure_installed_system` runs (it never raises) and the run reports
success regardless of the configurator's internal outcome. -/
def installThread (env : Env) (f : Fields) : RunResult :=
  let d := runSteps (deploySteps env f.qcow2Image f.selectedDisk)
  if d.2 then
    let c := configureInstalledSystem env f.selectedDisk f.username f.hostname f.password
    { trace := d.1 ++ c.1, deployOk := true, configOk := c.2, finalPage := 6 }
  else
    { trace := d.1, deployOk := false, configOk := false, finalPage := 1 }

/-- `perform_installation` (lines 811-851) as seen from the moment the plan
would be captured: the first `Fields` argument is the wizard-field snapshot
at the Summary advance, the second is the instance state at the time the
background thread actually reads `self.qcow2_image`, `self.selected_disk`,
`self.username`, `self.hostname`, `self.password`.  The source keeps no
snapshot: the thread reads the live instance fields, so the captured
argument is not consulted. -/
def performInstallation (env : Env) (_capturedPlan live : Fields) : RunResult :=
  installThread env live

/-- Wizard state relevant to the end of an install attempt: current page,
navigation-button sensitivity, and the mutable fields. -/
structure FullState where
  page : Nat
  backSensitive : Bool
  nextSensitive : Bool
  fields : Fields
deriving DecidableEq

/-- `installation_complete` (lines 964-969): move to the Finish page and
re-enable Next.  The wizard fields are not touched. -/
def installationComplete (s : FullState) : FullState :=
  { s with page := 6, nextSensitive := true }

/-- `installation_failed` (lines 971-986): show the error dialog, move back
to the Welcome page, disable Back, re-enable Next.  The wizard fields
(`selected_disk`, `username`, `hostname`, `password`) are not touched. -/
def installationFailed (s : FullState) : FullState :=
  { s with page := 1, backSensitive := false, nextSensitive := true }

/-- One whole install attempt started from the Installing page: run the
background thread on the current fields, then apply the terminal callback
the thread schedules. -/
def runInstallAttempt (env : Env) (s : FullState) : FullState × RunResult :=
  let r := installThread env s.fields
  (if r.deployOk then installationComplete s else installationFailed s, r)

/-- Navigation-button state of the wizard window.  A GTK button only emits a
click when it is both visible and sensitive, so a user-initiated retreat is
`onBackClicked`. -/
structure NavState where
  page : Nat
  backVisible : Bool
  backSensitive : Bool
  nextVisible : Bool
  nextSensitive : Bool
deriving DecidableEq

/-- `show_page` (lines 719-745): page 0 hides both navigation buttons;
any other page shows them, sets Back sensitive exactly when
`page > 1 and page < 5`, and hides Next again on the Installing page. -/
def showPage (p : Nat) (s : NavState) : NavState :=
  if p = 0 then
    { s with page := 0, backVisible := false, nextVisible := false }
  else
    { s with
        page := p
        backVisible := true
        backSensitive := decide (1 < p) && decide (p < 5)
        nextVisible := decide (p ≠ 5) }

/-- A user press of the Back button: it only fires when the button is
visible and sensitive, and the handler `on_back` (lines 691-694) then
decrements the page when it is above 1. -/
def onBackClicked (s : NavState) : NavState :=
  if s.backVisible && s.backSensitive then
    if 1 < s.page then showPage (s.page - 1) s else s
  else s

/-- The window's initial navigation state: page 0 (Choice), Back constructed
insensitive (line 90), everything shown by `show_all`. -/
def initialNav : NavState :=
  { page := 0, backVisible := true, backSensitive := false,
    nextVisible := true, nextSensitive := true }

/-- Events recorded by the configurator's pseudo-filesystem and root mounts. -/
def isMountEvent : Event → Bool
  | .mountRoot _ => true
  | .mountProc => true
  | .mountSys => true
  | .bindDev => true
  | .mountDevpts => true
  | _ => false

/-- Events belonging to `configure_installed_system`. -/
def isConfigureEvent : Event → Bool
  | .mountRoot _ => true
  | .writeHostname _ => true
  | .writeHosts _ => true
  | .mountProc => true
  | .mountSys => true
  | .bindDev => true
  | .mountDevpts => true
  | .chrootUseradd _ => true
  | .chrootChpasswd _ _ => true
  | .chrootUsermod _ => true
  | .umountPath _ => true
  | _ => false

/-- The destructive write. -/
def isFlashEvent : Event → Bool
  | .flashImage _ _ => true
  | _ => false

/-- The path a mount event mounts onto, if any. -/
def mountTargetPath : Event → Option String
  | .mountRoot _ => some mountPoint
  | .mountProc => some (mountPoint ++ "/proc")
  | .mountSys => some (mountPoint ++ "/sys")
  | .bindDev => some (mountPoint ++ "/dev")
  | .mountDevpts => some (mountPoint ++ "/dev/pts")
  | _ => none

/-- The mounts of the configurator in the order they are attempted. -/
def mountOrder (lines : List (String × String)) (disk : String) : List Event :=
  [ .mountRoot (findRootPartition lines disk),
    .mountProc, .mountSys, .bindDev, .mountDevpts ]

/-- The configurator's `try` block finishes without raising exactly when all
of its `check=True` invocations succeed. -/
def configFatalOk (env : Env) : Bool :=
  env.mountRootOk && env.writeHostnameOk && env.writeHostsOk &&
    env.useraddOk && env.userPasswdOk && env.rootPasswdOk

theorem runSteps_starts (l : List Step) : (runSteps l).1 <+: l.map Step.ev := by
  induction l with
  | nil => simp [runSteps]
  | cons s rest ih =>
      obtain ⟨ev, fatal, ok⟩ := s
      cases fatal <;> cases ok <;>
        simp [runSteps, List.cons_prefix_cons, ih, List.nil_prefix]

theorem runSteps_snd (l : List Step) :
    (runSteps l).2 = l.all (fun s => !s.fatal || s.ok) := by
  induction l with
  | nil => simp [runSteps]
  | cons s rest ih =>
      obtain ⟨ev, fatal, ok⟩ := s
      cases fatal <;> cases ok <;> simp [runSteps, List.all_cons, ih]

theorem runSteps_fst_of_ok (l : List Step) (h : ∀ s ∈ l, (s.fatal && !s.ok) = false) :
    (runSteps l).1 = l.map Step.ev := by
  induction l with
  | nil => simp [runSteps]
  | cons s rest ih =>
      have hs := h s (by simp)
      simp [runSteps, hs, ih fun t ht => h t (by simp [ht])]

theorem prefix_filter {α : Type} (p : α → Bool) {l₁ l₂ : List α} (h : l₁ <+: l₂) :
    l₁.filter p <+: l₂.filter p := by
  obtain ⟨t, rfl⟩ := h
  rw [List.filter_append]
  exact List.prefix_append _ _

/-- Sample wizard fields used by the concrete witnesses. -/
def sampleFields : Fields :=
  { qcow2Image := "/cdrom/images/madani.qcow2", selectedDisk := "/dev/sda",
    username := "alice", hostname := "madani", password := "pw" }

/-- Environment in which every external invocation succeeds. -/
def envAllOk : Env :=
  { verifyOk := true, flashOk := true, fsLines := [("sda1", "vfat"), ("sda2", "ext4")],
    mountRootOk := true, writeHostnameOk := true, writeHostsOk := true,
    useraddOk := true, userPasswdOk := true, usermodOk := true, rootPasswdOk := true }

/-- Claim C1: if the image-verification step fails (the `qemu-img info`
invocation exits non-zero or raises), the destructive `qemu-img convert`
write onto the selected device is never invoked in that run. -/
theorem verify_failure_blocks_flash (env : Env) (f : Fields)
    (hv : env.verifyOk = false) :
    ∀ img disk, Event.flashImage img disk ∉ (installThread env f).trace := by
  intro img disk
  simp [installThread, deploySteps, runSteps, hv]

/-- Witness for C1 at a concrete failing environment. -/
theorem verify_failure_blocks_flash_wit :
    Event.flashImage "/cdrom/images/madani.qcow2" "/dev/sda" ∉
      (installThread { envAllOk with verifyOk := false } sampleFields).trace :=
  verify_failure_blocks_flash { envAllOk with verifyOk := false } sampleFields rfl
    "/cdrom/images/madani.qcow2" "/dev/sda"

/-- Claim C2: for every run of the configurator, whatever the outcomes of
steps 1-4 (including raises), the trace ends with the full teardown; the
mounts happen in the order root, proc, sysfs, /dev bind, devpts (any prefix
of it, when an earlier step raised); the teardown unmounts exactly the five
mount targets in reverse order of mounting followed by a storage flush; and
every mount invocation of the run has its target unmounted by the teardown. -/
theorem teardown_always_unmounts_in_reverse (env : Env) (disk u h pw : String) :
    ∃ pre,
      (configureInstalledSystem env disk u h pw).1 = pre ++ teardownEvents ∧
      pre.filter isMountEvent <+: mountOrder env.fsLines disk ∧
      teardownEvents =
        (((mountOrder env.fsLines disk).filterMap mountTargetPath).reverse.map
          Event.umountPath) ++ [Event.syncFs] ∧
      ∀ e ∈ pre, isMountEvent e = true →
        ∃ path, mountTargetPath e = some path ∧ Event.umountPath path ∈ teardownEvents := by
  refine ⟨(runSteps (configureSteps env disk u h pw)).1, rfl, ?_, rfl, ?_⟩
  · have h1 := prefix_filter isMountEvent (runSteps_starts (configureSteps env disk u h pw))
    have h2 : ((configureSteps env disk u h pw).map Step.ev).filter isMountEvent
        = mountOrder env.fsLines disk := by
      simp [configureSteps, mountOrder, isMountEvent]
    rwa [h2] at h1
  · intro e he hm
    have hsub := (runSteps_starts (configureSteps env disk u h pw)).subset he
    simp only [configureSteps, List.map_cons, List.map_nil, List.mem_cons,
      List.not_mem_nil, or_false] at hsub
    rcases hsub with rfl | rfl | rfl | rfl | rfl | rfl | rfl | rfl | rfl | rfl | rfl <;>
      simp_all [isMountEvent, mountTargetPath, teardownEvents]

/-- Claim C7: a Back press in the Choice state (the initial state, or any
state shown via page 0) leaves the state unchanged, and a Back press is
rejected (state unchanged) in every state at or past Installing (page 5). -/
theorem retreat_blocked_at_choice_and_installing :
    onBackClicked initialNav = initialNav ∧
    (∀ s : NavState, onBackClicked (showPage 0 s) = showPage 0 s) ∧
    (∀ (p : Nat) (s : NavState), 5 ≤ p → onBackClicked (showPage p s) = showPage p s) := by
  refine ⟨rfl, ?_, ?_⟩
  · intro s
    simp [showPage, onBackClicked]
  · intro p s hp
    have h0 : p ≠ 0 := by omega
    have h5 : ¬ p < 5 := by omega
    simp [showPage, onBackClicked, h0, h5]

/-- Witness for C7 at the Installing page. -/
theorem retreat_blocked_at_choice_and_installing_wit :
    onBackClicked (showPage 5 initialNav) = showPage 5 initialNav :=
  retreat_blocked_at_choice_and_installing.2.2 5 initialNav (by decide)

/-- Claim C8: UserSetup validation fails for each of empty (stored) username,
empty (stored) hostname, empty password, and password not equal to its
confirmation, reporting the message naming the offending field (first
offender in source order); it succeeds exactly when all four constraints
hold simultaneously.  The stored username and hostname are the stripped
entry texts. -/
theorem user_setup_validation_characterization (u h p pc : String) :
    (userSetupCheck u h p pc = none ↔
      pyStrip u ≠ "" ∧ pyStrip h ≠ "" ∧ p ≠ "" ∧ p = pc) ∧
    (pyStrip u = "" → userSetupCheck u h p pc = some "Please enter a username") ∧
    (pyStrip u ≠ "" → pyStrip h = "" →
      userSetupCheck u h p pc = some "Please enter a computer name") ∧
    (pyStrip u ≠ "" → pyStrip h ≠ "" → p = "" →
      userSetupCheck u h p pc = some "Please enter a password") ∧
    (pyStrip u ≠ "" → pyStrip h ≠ "" → p ≠ "" → p ≠ pc →
      userSetupCheck u h p pc = some "Passwords do not match") := by
  unfold userSetupCheck
  split_ifs with h1 h2 h3 h4 <;> simp_all

/-- Witness for C8: a failing and a succeeding concrete input. -/
theorem user_setup_validation_characterization_wit :
    userSetupCheck "" "host" "pw" "pw" = some "Please enter a username" ∧
    userSetupCheck "alice" "host" "pw" "pw" = none :=
  ⟨(user_setup_validation_characterization "" "host" "pw" "pw").2.1 (by decide),
   (user_setup_validation_characterization "alice" "host" "pw" "pw").1.mpr (by decide)⟩

/-- Claim C10: `validate_current_page` strips the username and hostname
entries before the non-emptiness check, so whitespace-only entries are
rejected as empty; the password is not stripped, so any non-empty
whitespace-only password with a character-for-character equal confirmation
passes validation (given otherwise valid fields). -/
theorem password_whitespace_not_stripped (u h p : String) :
    ((∀ c ∈ u.data, isPySpace c = true) →
      userSetupCheck u h p p = some "Please enter a username") ∧
    (pyStrip u ≠ "" → (∀ c ∈ h.data, isPySpace c = true) →
      userSetupCheck u h p p = some "Please enter a computer name") ∧
    (pyStrip u ≠ "" → pyStrip h ≠ "" → p ≠ "" → (∀ c ∈ p.data, isPySpace c = true) →
      userSetupCheck u h p p = none) := by
  refine ⟨?_, ?_, ?_⟩
  · intro hu
    simp [userSetupCheck, pyStrip_of_all_space u hu]
  · intro hu hh
    simp [userSetupCheck, hu, pyStrip_of_all_space h hh]
  · intro hu hh hp _
    simp [userSetupCheck, hu, hh, hp]

/-- Witness for C10: a three-space password with equal confirmation passes;
a whitespace-only username is rejected as empty. -/
theorem password_whitespace_not_stripped_wit :
    userSetupCheck "alice" "host" "   " "   " = none ∧
    userSetupCheck " " "host" "pw" "pw" = some "Please enter a username" :=
  ⟨(password_whitespace_not_stripped "alice" "host" "   ").2.2 (by decide) (by decide)
      (by decide) (by decide),
   (password_whitespace_not_stripped " " "host" "pw").1 (by decide)⟩

theorem configOk_eq (env : Env) (disk u h pw : String) :
    (configureInstalledSystem env disk u h pw).2 = configFatalOk env := by
  obtain ⟨v, fl, ls, m, wh, ws, ua, up, um, rp⟩ := env
  cases m <;> cases wh <;> cases ws <;> cases ua <;> cases up <;> cases rp <;> rfl

/-- Claim C9: in every run in which the configurator completes successfully,
the root account's password is set to the very same password string as the
created user's password, and no password-setting call in the run uses any
other string. -/
theorem root_password_equals_user_password (env : Env) (disk u h pw : String)
    (hok : (configureInstalledSystem env disk u h pw).2 = true) :
    Event.chrootChpasswd u pw ∈ (configureInstalledSystem env disk u h pw).1 ∧
    Event.chrootChpasswd "root" pw ∈ (configureInstalledSystem env disk u h pw).1 ∧
    ∀ a q, Event.chrootChpasswd a q ∈ (configureInstalledSystem env disk u h pw).1 →
      q = pw := by
  have hflags : configFatalOk env = true := by
    rw [← configOk_eq env disk u h pw]
    exact hok
  simp only [configFatalOk, Bool.and_eq_true] at hflags
  obtain ⟨⟨⟨⟨⟨h1, h2⟩, h3⟩, h4⟩, h5⟩, h6⟩ := hflags
  have hall : ∀ s ∈ configureSteps env disk u h pw, (s.fatal && !s.ok) = false := by
    intro s hs
    simp only [configureSteps, List.mem_cons, List.not_mem_nil, or_false] at hs
    rcases hs with rfl | rfl | rfl | rfl | rfl | rfl | rfl | rfl | rfl | rfl | rfl <;>
      simp [h1, h2, h3, h4, h5, h6]
  have htr : (configureInstalledSystem env disk u h pw).1
      = (configureSteps env disk u h pw).map Step.ev ++ teardownEvents := by
    simp [configureInstalledSystem, runSteps_fst_of_ok _ hall]
  refine ⟨?_, ?_, ?_⟩
  · rw [htr]
    simp [configureSteps]
  · rw [htr]
    simp [configureSteps]
  · intro a q hq
    rw [htr] at hq
    simp [configureSteps, teardownEvents] at hq
    rcases hq with ⟨_, rfl⟩ | ⟨_, rfl⟩ <;> rfl

/-- Witness for C9 at a fully successful concrete run. -/
theorem root_password_equals_user_password_wit :
    Event.chrootChpasswd "root" "pw" ∈
      (configureInstalledSystem envAllOk "/dev/sda" "alice" "madani" "pw").1 :=
  (root_password_equals_user_password envAllOk "/dev/sda" "alice" "madani" "pw"
    (by decide)).2.1

theorem deployOk_eq (env : Env) (img disk : String) :
    (runSteps (deploySteps env img disk)).2 = (env.verifyOk && env.flashOk) := by
  obtain ⟨v, fl, ls, m, wh, ws, ua, up, um, rp⟩ := env
  cases v <;> cases fl <;> rfl

theorem configure_no_flash (env : Env) (disk u h pw : String) :
    ((configureInstalledSystem env disk u h pw).1).filter isFlashEvent = [] := by
  have h1 := prefix_filter isFlashEvent (runSteps_starts (configureSteps env disk u h pw))
  have h2 : ((configureSteps env disk u h pw).map Step.ev).filter isFlashEvent = [] := by
    simp [configureSteps, isFlashEvent]
  rw [h2] at h1
  have h3 := List.prefix_nil.mp h1
  simp [configureInstalledSystem, List.filter_append, h3, teardownEvents, isFlashEvent]

/-- Counterexample to claim C3: a concrete run in which the fatal
user-creation call of the configurator fails, yet the run ends on the
terminal Finished page (6) because `configure_installed_system` catches and
merely logs its own exceptions and `install_thread` then reports success. -/
theorem config_failure_reaches_finished :
    (installThread { envAllOk with useraddOk := false } sampleFields).configOk = false ∧
    (installThread { envAllOk with useraddOk := false } sampleFields).deployOk = true ∧
    (installThread { envAllOk with useraddOk := false } sampleFields).finalPage = 6 := by
  decide

/-- Amended C3: when a fatal configurator step fails after a successful
deploy, the failure is swallowed inside the configurator (only logged): the
run still ends on the Finished page reporting success, and the
already-flashed disk image is not reverted (the run's single destructive
write is the one flash of the image). -/
theorem config_failure_swallowed (env : Env) (f : Fields)
    (hv : env.verifyOk = true) (hf : env.flashOk = true)
    (hc : configFatalOk env = false) :
    (installThread env f).deployOk = true ∧
    (installThread env f).finalPage = 6 ∧
    (installThread env f).configOk = false ∧
    (installThread env f).trace.filter isFlashEvent
      = [Event.flashImage f.qcow2Image f.selectedDisk] := by
  have hd : runSteps (deploySteps env f.qcow2Image f.selectedDisk)
      = ([.umountParts f.selectedDisk, .verifyImage f.qcow2Image,
          .flashImage f.qcow2Image f.selectedDisk, .syncFs, .partprobe f.selectedDisk],
         true) := by
    simp [deploySteps, runSteps, hv, hf]
  refine ⟨?_, ?_, ?_, ?_⟩ <;>
    simp [installThread, hd, configOk_eq, hc, List.filter_append, configure_no_flash,
      isFlashEvent]

/-- Witness for the amended C3 with a failing root-password step. -/
theorem config_failure_swallowed_wit :
    (installThread { envAllOk with rootPasswdOk := false } sampleFields).deployOk = true ∧
    (installThread { envAllOk with rootPasswdOk := false } sampleFields).finalPage = 6 ∧
    (installThread { envAllOk with rootPasswdOk := false } sampleFields).configOk = false ∧
    (installThread { envAllOk with rootPasswdOk := false } sampleFields).trace.filter
      isFlashEvent = [Event.flashImage "/cdrom/images/madani.qcow2" "/dev/sda"] :=
  config_failure_swallowed { envAllOk with rootPasswdOk := false } sampleFields
    rfl rfl (by decide)

/-- A live field state differing from the captured one only in the disk the
user would select after the plan was supposedly captured. -/
def liveEdited : Fields := { sampleFields with selectedDisk := "/dev/sdb" }

/-- Counterexample to claim C4: two runs that agree on every wizard field at
the moment the plan would be captured behave differently when the mutable
fields change before the background thread reads them, and the flash then
targets the post-capture disk — the pipeline re-reads mutable wizard state. -/
theorem capture_agreement_not_sufficient :
    performInstallation envAllOk sampleFields sampleFields ≠
      performInstallation envAllOk sampleFields liveEdited ∧
    Event.flashImage "/cdrom/images/madani.qcow2" "/dev/sdb" ∈
      (performInstallation envAllOk sampleFields liveEdited).trace := by
  decide

/-- Amended C4: no snapshot is taken — the pipeline's behaviour is a
function of the wizard fields at the time the background thread reads them
(two runs agreeing on those live values behave identically whatever was
captured), and the flash targets the live image path and disk. -/
theorem pipeline_reads_live_fields :
    (∀ (env : Env) (c₁ c₂ l : Fields),
      performInstallation env c₁ l = performInstallation env c₂ l) ∧
    (∀ (env : Env) (c l : Fields), env.verifyOk = true →
      Event.flashImage l.qcow2Image l.selectedDisk ∈
        (performInstallation env c l).trace) := by
  constructor
  · intro env c₁ c₂ l
    rfl
  · intro env c l hv
    cases hfl : env.flashOk <;>
      simp [performInstallation, installThread, deploySteps, runSteps, hv, hfl]

/-- Witness for the amended C4 at a concrete run. -/
theorem pipeline_reads_live_fields_wit :
    Event.flashImage "/cdrom/images/madani.qcow2" "/dev/sda" ∈
      (performInstallation envAllOk sampleFields sampleFields).trace :=
  pipeline_reads_live_fields.2 envAllOk sampleFields sampleFields rfl

/-- The wizard state at the moment the background thread starts: Installing
page, both navigation buttons disabled. -/
def installingState : FullState :=
  { page := 5, backSensitive := false, nextSensitive := false, fields := sampleFields }

/-- Counterexample to claim C5: when the deploy pipeline fails at the
destructive write step, the wizard does return to Welcome, but the selected
disk and the user profile are NOT discarded — they still hold their
pre-failure values after `installation_failed` runs. -/
theorem deploy_failure_fields_retained :
    (runInstallAttempt { envAllOk with flashOk := false } installingState).1.page = 1 ∧
    (runInstallAttempt { envAllOk with flashOk := false }
      installingState).1.fields.selectedDisk = "/dev/sda" ∧
    (runInstallAttempt { envAllOk with flashOk := false }
      installingState).1.fields.username = "alice" ∧
    (runInstallAttempt { envAllOk with flashOk := false }
      installingState).1.fields.password = "pw" := by
  decide

/-- Amended C5: whenever the deploy pipeline fails, the wizard returns to
the Welcome page with Next re-enabled and Back disabled, and no
configuration step is attempted in that run; the selected disk and the user
profile are retained unchanged, not discarded. -/
theorem deploy_failure_returns_welcome (env : Env) (s : FullState)
    (hfail : (env.verifyOk && env.flashOk) = false) :
    (runInstallAttempt env s).1.page = 1 ∧
    (runInstallAttempt env s).1.nextSensitive = true ∧
    (runInstallAttempt env s).1.backSensitive = false ∧
    (runInstallAttempt env s).1.fields = s.fields ∧
    ∀ e ∈ (runInstallAttempt env s).2.trace, isConfigureEvent e = false := by
  have hd : (runSteps (deploySteps env s.fields.qcow2Image s.fields.selectedDisk)).2
      = false := by
    rw [deployOk_eq]
    exact hfail
  refine ⟨?_, ?_, ?_, ?_, ?_⟩ <;>
    simp only [runInstallAttempt, installThread, hd, if_false, Bool.false_eq_true,
      installationFailed]
  intro e he
  have hsub := (runSteps_starts
    (deploySteps env s.fields.qcow2Image s.fields.selectedDisk)).subset he
  simp only [deploySteps, List.map_cons, List.map_nil, List.mem_cons,
    List.not_mem_nil, or_false] at hsub
  rcases hsub with rfl | rfl | rfl | rfl | rfl <;> rfl

/-- Witness for the amended C5 with a failing verification step. -/
theorem deploy_failure_returns_welcome_wit :
    (runInstallAttempt { envAllOk with verifyOk := false } installingState).1.page = 1 ∧
    (runInstallAttempt { envAllOk with verifyOk := false }
      installingState).1.fields = sampleFields := by
  have hw := deploy_failure_returns_welcome { envAllOk with verifyOk := false }
    installingState (by decide)
  exact ⟨hw.1, hw.2.2.2.1⟩

/-- Stale wizard fields from an earlier, successful validation pass. -/
def staleFields : Fields :=
  { qcow2Image := "/cdrom/images/madani.qcow2", selectedDisk := "/dev/sda",
    username := "old", hostname := "oldhost", password := "oldpw" }

/-- Entry texts whose validation fails (empty password) after the user
edited the username and hostname. -/
def badEntries : Entries :=
  { usernameEntry := "new", hostnameEntry := "newhost",
    passwordEntry := "", passwordConfirmEntry := "" }

/-- Counterexample to claim C6: a failed UserSetup validation attempt leaves
the page unchanged and shows an error, but it mutates wizard fields — the
username and hostname fields are overwritten with the new entry texts before
the failing check runs. -/
theorem failed_validation_mutates_user_fields :
    (onNext 3 staleFields none badEntries).1 = 3 ∧
    (onNext 3 staleFields none badEntries).2.2 = some "Please enter a password" ∧
    (onNext 3 staleFields none badEntries).2.1.username = "new" ∧
    (onNext 3 staleFields none badEntries).2.1 ≠ staleFields := by
  decide

/-- Amended C6: when validation fails, the error is shown and the current
step stays the same, and neither the selected disk nor the image path is
mutated by the failed attempt; the username, hostname and password fields,
however, may be overwritten with the entry texts by a failed UserSetup
attempt. -/
theorem failed_validation_keeps_page_and_disk (page : Nat) (f : Fields)
    (sel : Option String) (e : Entries)
    (hfail : (onNext page f sel e).2.2.isSome = true) :
    (onNext page f sel e).1 = page ∧
    (onNext page f sel e).2.1.selectedDisk = f.selectedDisk ∧
    (onNext page f sel e).2.1.qcow2Image = f.qcow2Image := by
  cases hv : (validateCurrentPage page f sel e).2 with
  | none =>
      rw [onNext, hv] at hfail
      simp at hfail
  | some msg =>
      have hfst : (validateCurrentPage page f sel e).1.selectedDisk = f.selectedDisk ∧
          (validateCurrentPage page f sel e).1.qcow2Image = f.qcow2Image := by
        rw [validateCurrentPage.eq_def] at hv ⊢
        split_ifs at hv ⊢ with h2 h3
        · cases sel with
          | none => exact ⟨rfl, rfl⟩
          | some d => simp at hv
        · exact ⟨rfl, rfl⟩
      rw [onNext, hv]
      exact ⟨rfl, hfst.1, hfst.2⟩

/-- Witness for the amended C6 at a concrete failed attempt. -/
theorem failed_validation_keeps_page_and_disk_wit :
    (onNext 3 staleFields none badEntries).1 = 3 ∧
    (onNext 3 staleFields none badEntries).2.1.selectedDisk = "/dev/sda" := by
  have hw := failed_validation_keeps_page_and_disk 3 staleFields none badEntries (by decide)
  exact ⟨hw.1, hw.2.1⟩

end Installer
